import Mathlib

/-!
A shallow embedding of the `kainos-automation-tests` repository: the
Cucumber step definitions of `features/step_definitions/header.steps.ts`,
the lifecycle hooks of `features/support/hooks.ts`, and the runner
configuration of `cucumber.js`.

The browser page is modelled as an explicit state value (a list of
accessibility-tree elements plus url and title).  Playwright locator
primitives (`getByRole`, `locator(css)`, `toBeVisible`, `getAttribute`,
`toHaveAttribute`, `isVisible`, `click`, `hover`, `focus`, `toBeFocused`)
are given executable semantics over that state, including Playwright's
strict mode (an action or assertion on a locator that resolves to more
than one element fails) and the three accessible-name matching modes the
source uses: `exact: true` (literal equality), the default
(case-insensitive substring), and a JavaScript regular expression built
with `new RegExp(arg, 'i')` (case-insensitive, unanchored).  Fallible
operations return `Except String`; each step additionally reports the
list of browser effects it performed (DOM queries, navigations, clicks,
hovers, focuses, waits), which embeds the side-effect footprint of the
step routines.
-/

deriving instance DecidableEq for Except

namespace Kainos

/-- One element of the rendered page, as seen through Playwright locators:
its HTML tag, ARIA role, accessible name, attributes, visibility, focus
state, and whether it lies inside the `#header` landmark. -/
structure Elem where
  tag : String
  role : String
  name : String
  attrs : List (String × String)
  visible : Bool
  focused : Bool
  inHeader : Bool
  deriving Repr, DecidableEq

/-- `getAttribute`: the first binding of the attribute key, if any
(`none` models JavaScript `null`). -/
def getAttr (e : Elem) (k : String) : Option String :=
  (e.attrs.find? (fun kv => kv.fst == k)).map Prod.snd

/-- The browser page state: current location, document title, and the
elements of the rendered document. -/
structure PageState where
  url : String
  title : String
  elems : List Elem
  deriving Repr, DecidableEq

/-! ### JavaScript regular expressions, fragment used by the source

The source builds name matchers with `new RegExp(arg, 'i')` and the
literal `/logo/i`.  We model the fragment of JavaScript regex syntax
those arguments exercise: every character is a literal except `.`, which
matches any single character.  The `i` flag makes literal comparison
case-insensitive, and `RegExp.prototype.test` is unanchored: the pattern
may match at any position of the subject string. -/

/-- A compiled regex token: a literal character or the `.` wildcard. -/
inductive RTok where
  | lit (c : Char)
  | dotAny
  deriving Repr, DecidableEq

/-- Compile the string passed to `new RegExp` into tokens: `.` becomes
the wildcard, every other character a literal. -/
def compileRegex (s : String) : List RTok :=
  s.data.map (fun c => if c == '.' then RTok.dotAny else RTok.lit c)

/-- Anchored matching of a token list against a prefix of the subject,
case-insensitively (the `i` flag). -/
def rmatchHere : List RTok → List Char → Bool
  | [], _ => true
  | _ :: _, [] => false
  | RTok.lit c :: ts, x :: xs => (x.toLower == c.toLower) && rmatchHere ts xs
  | RTok.dotAny :: ts, _ :: xs => rmatchHere ts xs

/-- `RegExp.prototype.test`: unanchored search, the pattern may match at
any suffix position of the subject. -/
def rtest (ts : List RTok) (s : String) : Bool :=
  s.data.tails.any (fun suf => rmatchHere ts suf)

/-! ### Accessible-name selection and locator resolution -/

/-- Boolean substring containment on strings, case-sensitively. -/
def charsContain (needle hay : List Char) : Bool :=
  hay.tails.any (fun suf => needle.isPrefixOf suf)

/-- The three accessible-name matching modes used by the source:
`getByRole(role, { name, exact: true })`, the default
`getByRole(role, { name })` (case-insensitive substring), and
`getByRole(role, { name: regex })`. -/
inductive NameSel where
  | exactName (s : String)
  | substrCI (s : String)
  | regexI (ts : List RTok)
  deriving Repr, DecidableEq

/-- Whether an accessible name satisfies a name selector. -/
def nameMatches : NameSel → String → Bool
  | NameSel.exactName s, n => n == s
  | NameSel.substrCI s, n =>
      charsContain (s.data.map Char.toLower) (n.data.map Char.toLower)
  | NameSel.regexI ts, n => rtest ts n

/-- `page.getByRole(role, nameOpts)`, optionally scoped by a preceding
`page.locator('#header')`: all elements of the page with the requested
role whose accessible name satisfies the selector, restricted to the
header landmark when scoped. -/
def resolveRole (p : PageState) (scopedToHeader : Bool) (role : String)
    (sel : NameSel) : List Elem :=
  p.elems.filter (fun e =>
    (!scopedToHeader || e.inHeader) && e.role == role && nameMatches sel e.name)

/-- `page.locator('#header img[alt="logo"]')`: `img` tags inside the
header whose `alt` attribute is the string `logo`. -/
def resolveLogoImg (p : PageState) : List Elem :=
  p.elems.filter (fun e =>
    e.inHeader && e.tag == "img" && (getAttr e "alt" == some "logo"))

/-- `page.locator('header, [role="banner"]')`: elements that are
`header` tags or carry the `banner` role. -/
def resolveBanner (p : PageState) : List Elem :=
  p.elems.filter (fun e => e.tag == "header" || e.role == "banner")

/-! ### Playwright assertion and action primitives

Playwright's strict mode makes every single-element assertion or action
fail when the locator resolves to more than one element; resolving to
none makes the operation time out, which is also a failure.  These
primitives therefore succeed exactly on a unique resolution. -/

/-- `expect(locator).toBeVisible()`: succeeds when the locator resolves
to exactly one element and that element is visible. -/
def assertVisible (es : List Elem) : Except String Unit :=
  match es with
  | [e] => if e.visible then Except.ok () else Except.error "element not visible"
  | [] => Except.error "no element matched the locator"
  | _ => Except.error "strict mode violation"

/-- `locator.getAttribute(k)`: strict resolution, then the attribute
value (`none` for JavaScript `null`). -/
def getAttributeStrict (es : List Elem) (k : String) :
    Except String (Option String) :=
  match es with
  | [e] => Except.ok (getAttr e k)
  | [] => Except.error "no element matched the locator"
  | _ => Except.error "strict mode violation"

/-- `expect(locator).toHaveAttribute(k, v)` with a string expectation:
strict resolution and literal equality of the attribute value. -/
def assertHaveAttribute (es : List Elem) (k v : String) : Except String Unit :=
  match es with
  | [e] => if getAttr e k == some v then Except.ok ()
           else Except.error "attribute mismatch"
  | [] => Except.error "no element matched the locator"
  | _ => Except.error "strict mode violation"

/-- `expect(locator).toBeFocused()`: strict resolution and focus. -/
def assertFocused (es : List Elem) : Except String Unit :=
  match es with
  | [e] => if e.focused then Except.ok () else Except.error "element not focused"
  | [] => Except.error "no element matched the locator"
  | _ => Except.error "strict mode violation"

/-- `locator.isVisible()`: returns `false` when nothing matches, the
element's visibility on a unique match, and throws a strict-mode
violation on multiple matches. -/
def isVisibleExc (es : List Elem) : Except String Bool :=
  match es with
  | [] => Except.ok false
  | [e] => Except.ok e.visible
  | _ => Except.error "strict mode violation"

/-- `promise.catch(() => false)`: any error from the visibility check is
converted into the value `false`. -/
def catchFalse (r : Except String Bool) : Bool :=
  match r with
  | Except.ok b => b
  | Except.error _ => false

/-! ### Step routines, `features/step_definitions/header.steps.ts`

Each step is a function from the page state to a result, the page state
after the step, and the list of browser effects performed.  DOM-level
consequences of interactions (what the live site renders after a click
or hover) are external to the repository and are not modelled: an
interaction is recorded in the effect trace and leaves the modelled DOM
untouched, except for `focus`, whose effect (moving keyboard focus) is
part of the page state itself. -/

/-- A browser-level effect performed by a step routine. -/
inductive Effect where
  | navigation (url : String)
  | domQuery
  | clickOn (label : String)
  | hoverOn (label : String)
  | focusOn (label : String)
  | waitMs (ms : Nat)
  | waitLoadState
  deriving Repr, DecidableEq

/-- Outcome of one step routine: pass/fail result, resulting page state,
and effect trace. -/
structure StepRun where
  res : Except String Unit
  page : PageState
  effects : List Effect

/-- Line 6 of `header.steps.ts`: `setDefaultTimeout(30000)`, the
cucumber default step timeout in milliseconds. -/
def defaultStepTimeoutMs : Nat := 30000

/-- `Given('I navigate to the Kainos homepage')`:
`await this.page.goto('https://www.kainos.com')`.  The document served
after navigation is produced by the live site, outside this repository;
only the location change and the navigation effect are modelled. -/
def navigateToKainosHomepage (p : PageState) : StepRun :=
  { res := Except.ok ()
    page := { p with url := "https://www.kainos.com" }
    effects := [Effect.navigation "https://www.kainos.com"] }

/-- The cookie-banner locator of the `I accept the cookie consent` step:
`this.page.getByRole('button', { name: 'I Accept Cookies' })` (default
name matching: case-insensitive substring). -/
def acceptCookiesButtonLocator (p : PageState) : List Elem :=
  resolveRole p false "button" (NameSel.substrCI "I Accept Cookies")

/-- `Given('I accept the cookie consent')`: check the banner button's
visibility with `.catch(() => false)`; if (and only if) the check
returned `true`, click it and `waitForTimeout(1000)`. -/
def acceptCookieConsent (p : PageState) : StepRun :=
  let es := acceptCookiesButtonLocator p
  let iv := catchFalse (isVisibleExc es)
  if iv then
    { res := Except.ok ()
      page := p
      effects := [Effect.domQuery, Effect.domQuery,
                  Effect.clickOn "I Accept Cookies", Effect.waitMs 1000] }
  else
    { res := Except.ok (), page := p, effects := [Effect.domQuery] }

/-- `Then('the Kainos logo should be visible')`:
`expect(page.locator('#header img[alt="logo"]')).toBeVisible()`. -/
def kainosLogoShouldBeVisible (p : PageState) : StepRun :=
  { res := assertVisible (resolveLogoImg p)
    page := p
    effects := [Effect.domQuery] }

/-- The literal expected logo source substring of
`the logo should contain the correct image source`. -/
def logoSrcSubstring : String := "/globalassets/images/5_logos/kainos_logo.png"

/-- `Then('the logo should contain the correct image source')`:
`getAttribute('src')` on the logo image, then
`expect(logoSrc).toContain(...)` (case-sensitive substring; a `null`
source fails the expectation). -/
def logoShouldContainCorrectImageSource (p : PageState) : StepRun :=
  { res :=
      match getAttributeStrict (resolveLogoImg p) "src" with
      | Except.error msg => Except.error msg
      | Except.ok none => Except.error "src attribute is null"
      | Except.ok (some s) =>
          if charsContain logoSrcSubstring.data s.data then Except.ok ()
          else Except.error "src does not contain expected substring"
    page := p
    effects := [Effect.domQuery] }

/-- `Then('the logo should link to the homepage')`:
`expect(page.locator('#header').getByRole('link', { name: /logo/i }))
.toHaveAttribute('href', '/')`. -/
def logoShouldLinkToHomepage (p : PageState) : StepRun :=
  { res :=
      assertHaveAttribute
        (resolveRole p true "link" (NameSel.regexI (compileRegex "logo")))
        "href" "/"
    page := p
    effects := [Effect.domQuery] }

/-- One row of the navigation-items data table: the values under the
`Navigation Item` and `URL` columns produced by `dataTable.hashes()`. -/
structure NavRow where
  item : String
  url : String
  deriving Repr, DecidableEq

/-- The locator of one navigation row:
`this.page.locator('#header').getByRole('link',
{ name: row['Navigation Item'], exact: true })`. -/
def navRowLocator (p : PageState) (r : NavRow) : List Elem :=
  resolveRole p true "link" (NameSel.exactName r.item)

/-- The loop body of
`Then('the following navigation items should be visible:')`: for each
row in table order, `expect(navLink).toBeVisible()`, then
`navLink.getAttribute('href')` and `expect(href).toBe(row['URL'])`; the
loop aborts at the first failing row. -/
def navItemsLoop (p : PageState) : List NavRow → Except String Unit × List Effect
  | [] => (Except.ok (), [])
  | r :: rest =>
    let es := navRowLocator p r
    match assertVisible es with
    | Except.error msg => (Except.error msg, [Effect.domQuery])
    | Except.ok _ =>
      match getAttributeStrict es "href" with
      | Except.error msg => (Except.error msg, [Effect.domQuery, Effect.domQuery])
      | Except.ok href =>
        if href == some r.url then
          let rec2 := navItemsLoop p rest
          (rec2.fst, Effect.domQuery :: Effect.domQuery :: rec2.snd)
        else (Except.error "href mismatch", [Effect.domQuery, Effect.domQuery])

/-- `Then('the following navigation items should be visible:')` as a
step routine over the supplied data table. -/
def theFollowingNavigationItemsShouldBeVisible (p : PageState)
    (rows : List NavRow) : StepRun :=
  let out := navItemsLoop p rows
  { res := out.fst, page := p, effects := out.snd }

/-- `Then('the {string} button should be visible')`:
`expect(page.getByRole('button', { name: new RegExp(buttonName, 'i') }))
.toBeVisible()`. -/
def theButtonShouldBeVisible (p : PageState) (buttonName : String) : StepRun :=
  { res :=
      assertVisible
        (resolveRole p false "button" (NameSel.regexI (compileRegex buttonName)))
    page := p
    effects := [Effect.domQuery] }

/-- `Then('the {string} link should be visible')`:
`expect(page.getByRole('link', { name: new RegExp(linkName, 'i') }))
.toBeVisible()`. -/
def theLinkShouldBeVisible (p : PageState) (linkName : String) : StepRun :=
  { res :=
      assertVisible
        (resolveRole p false "link" (NameSel.regexI (compileRegex linkName)))
    page := p
    effects := [Effect.domQuery] }

/-- `Then('the {string} link should point to {string}')`:
`expect(page.getByRole('link', { name: new RegExp(linkName, 'i') }))
.toHaveAttribute('href', url)`. -/
def theLinkShouldPointTo (p : PageState) (linkName url : String) : StepRun :=
  { res :=
      assertHaveAttribute
        (resolveRole p false "link" (NameSel.regexI (compileRegex linkName)))
        "href" url
    page := p
    effects := [Effect.domQuery] }

/-- `When('I hover over the {string} navigation item')`: resolve the
header link with `exact: true`, `hover()` (actionability requires a
unique visible match), then `waitForTimeout(500)`. -/
def hoverOverNavigationItem (p : PageState) (navItem : String) : StepRun :=
  match resolveRole p true "link" (NameSel.exactName navItem) with
  | [e] =>
    if e.visible then
      { res := Except.ok ()
        page := p
        effects := [Effect.domQuery, Effect.hoverOn navItem, Effect.waitMs 500] }
    else
      { res := Except.error "element not actionable", page := p
        effects := [Effect.domQuery] }
  | [] =>
    { res := Except.error "no element matched the locator", page := p
      effects := [Effect.domQuery] }
  | _ =>
    { res := Except.error "strict mode violation", page := p
      effects := [Effect.domQuery] }

/-- One row of the services data table (`Service` column). -/
structure ServiceRow where
  service : String
  deriving Repr, DecidableEq

/-- One row of the impacts data table (`Impact` column). -/
structure ImpactRow where
  impact : String
  deriving Repr, DecidableEq

/-- The loop body of
`Then('the following services should be visible in the dropdown:')`:
for each row, `expect(page.getByRole('link',
{ name: service['Service'] })).toBeVisible()` (default name matching:
case-insensitive substring). -/
def servicesLoop (p : PageState) : List ServiceRow → Except String Unit × List Effect
  | [] => (Except.ok (), [])
  | r :: rest =>
    match assertVisible (resolveRole p false "link" (NameSel.substrCI r.service)) with
    | Except.error msg => (Except.error msg, [Effect.domQuery])
    | Except.ok _ =>
      let rec2 := servicesLoop p rest
      (rec2.fst, Effect.domQuery :: rec2.snd)

/-- `Then('the following services should be visible in the dropdown:')`. -/
def theFollowingServicesShouldBeVisible (p : PageState)
    (rows : List ServiceRow) : StepRun :=
  let out := servicesLoop p rows
  { res := out.fst, page := p, effects := out.snd }

/-- The loop body of
`Then('the following impacts should be visible in the dropdown:')`. -/
def impactsLoop (p : PageState) : List ImpactRow → Except String Unit × List Effect
  | [] => (Except.ok (), [])
  | r :: rest =>
    match assertVisible (resolveRole p false "link" (NameSel.substrCI r.impact)) with
    | Except.error msg => (Except.error msg, [Effect.domQuery])
    | Except.ok _ =>
      let rec2 := impactsLoop p rest
      (rec2.fst, Effect.domQuery :: rec2.snd)

/-- `Then('the following impacts should be visible in the dropdown:')`. -/
def theFollowingImpactsShouldBeVisible (p : PageState)
    (rows : List ImpactRow) : StepRun :=
  let out := impactsLoop p rows
  { res := out.fst, page := p, effects := out.snd }

/-- `When('I click on the {string} navigation item')`: resolve the
header link with `exact: true`, `click()`, then
`waitForLoadState('domcontentloaded')`.  The page the site serves after
the click is external and not modelled. -/
def clickOnNavigationItem (p : PageState) (navItem : String) : StepRun :=
  match resolveRole p true "link" (NameSel.exactName navItem) with
  | [e] =>
    if e.visible then
      { res := Except.ok ()
        page := p
        effects := [Effect.domQuery, Effect.clickOn navItem, Effect.waitLoadState] }
    else
      { res := Except.error "element not actionable", page := p
        effects := [Effect.domQuery] }
  | [] =>
    { res := Except.error "no element matched the locator", page := p
      effects := [Effect.domQuery] }
  | _ =>
    { res := Except.error "strict mode violation", page := p
      effects := [Effect.domQuery] }

/-- `When('I click on the {string} link')`: identical body to the
navigation-item click, keyed by the `linkText` argument. -/
def clickOnLink (p : PageState) (linkText : String) : StepRun :=
  match resolveRole p true "link" (NameSel.exactName linkText) with
  | [e] =>
    if e.visible then
      { res := Except.ok ()
        page := p
        effects := [Effect.domQuery, Effect.clickOn linkText, Effect.waitLoadState] }
    else
      { res := Except.error "element not actionable", page := p
        effects := [Effect.domQuery] }
  | [] =>
    { res := Except.error "no element matched the locator", page := p
      effects := [Effect.domQuery] }
  | _ =>
    { res := Except.error "strict mode violation", page := p
      effects := [Effect.domQuery] }

/-- `Then('I should be navigated to {string}')`:
`expect(this.page.url()).toContain(url)`; `page.url()` is a synchronous
accessor, no DOM query. -/
def iShouldBeNavigatedTo (p : PageState) (url : String) : StepRun :=
  { res :=
      if charsContain url.data p.url.data then Except.ok ()
      else Except.error "url does not contain expected fragment"
    page := p
    effects := [] }

/-- `Then('the page title should contain {string}')`:
`await this.page.title()`, then `expect(title).toContain(titleText)`. -/
def thePageTitleShouldContain (p : PageState) (titleText : String) : StepRun :=
  { res :=
      if charsContain titleText.data p.title.data then Except.ok ()
      else Except.error "title does not contain expected fragment"
    page := p
    effects := [Effect.domQuery] }

/-- `locator.focus()` on a resolved element: keyboard focus moves to it
and leaves every other element. -/
def focusElem (p : PageState) (target : Elem) : PageState :=
  { p with elems := p.elems.map (fun e => { e with focused := e == target }) }

/-- One iteration of the keyboard-accessibility loop: `link.focus()`
then `expect(link).toBeFocused()` (each action re-resolves the
locator). -/
def focusAndCheck (p : PageState) (label : String) :
    Except String Unit × PageState × List Effect :=
  match resolveRole p true "link" (NameSel.exactName label) with
  | [e] =>
    let p2 := focusElem p e
    (assertFocused (resolveRole p2 true "link" (NameSel.exactName label)), p2,
     [Effect.domQuery, Effect.focusOn label, Effect.domQuery])
  | [] => (Except.error "no element matched the locator", p, [Effect.domQuery])
  | _ => (Except.error "strict mode violation", p, [Effect.domQuery])

/-- The loop of `all navigation links should be keyboard accessible`
over the fixed list of link labels, threading the page state. -/
def keyboardLoop (p : PageState) : List String →
    Except String Unit × PageState × List Effect
  | [] => (Except.ok (), p, [])
  | l :: rest =>
    match focusAndCheck p l with
    | (Except.ok _, p2, effs) =>
      let out := keyboardLoop p2 rest
      (out.fst, out.snd.fst, effs ++ out.snd.snd)
    | (Except.error msg, p2, effs) => (Except.error msg, p2, effs)

/-- The fixed list of header links checked by
`all navigation links should be keyboard accessible`. -/
def keyboardNavLabels : List String := ["Digital Services", "Workday", "Industries"]

/-- `Then('all navigation links should be keyboard accessible')`. -/
def allNavigationLinksKeyboardAccessible (p : PageState) : StepRun :=
  let out := keyboardLoop p keyboardNavLabels
  { res := out.fst, page := out.snd.fst, effects := out.snd.snd }

/-- `Then('the header should have proper ARIA landmarks')`:
`expect(page.locator('header, [role="banner"]')).toBeVisible()`. -/
def theHeaderShouldHaveProperAriaLandmarks (p : PageState) : StepRun :=
  { res := assertVisible (resolveBanner p)
    page := p
    effects := [Effect.domQuery] }

/-! ### The scenario world

Every step body is `async function (this: CustomWorld)` and touches the
world only through `this.page` (`features/support/world.ts`).  The
wrapper below runs a step inside the full scenario world, which also
carries the context configuration and the report attachments; a step can
change only the page component. -/

/-- The browsing-context options passed to `browser.newContext` in the
`Before` hook (`hooks.ts` lines 18-21). -/
structure ContextOptions where
  viewportWidth : Nat
  viewportHeight : Nat
  ignoreHTTPSErrors : Bool
  deriving Repr, DecidableEq

/-- The per-page settings applied in the `Before` hook. -/
structure PageSettings where
  defaultTimeoutMs : Nat
  deriving Repr, DecidableEq

/-- The `CustomWorld` of one scenario: the page state plus the
non-page components a step never touches. -/
structure ScenarioWorld where
  page : PageState
  contextOptions : ContextOptions
  pageSettings : PageSettings
  attachments : List String

/-- Run a step routine inside the scenario world: only the page
component is read and written (step bodies reference `this.page`
only). -/
def runStepInWorld (s : PageState → StepRun) (w : ScenarioWorld) :
    Except String Unit × ScenarioWorld × List Effect :=
  let out := s w.page
  (out.res, { w with page := out.page }, out.effects)

/-! ### Lifecycle hooks, `features/support/hooks.ts` -/

/-- `Before` hook: `browser.newContext({ viewport: { width: 1920,
height: 1080 }, ignoreHTTPSErrors: true })`, then `context.newPage()`,
then `this.page.setDefaultTimeout(30000)`. -/
def beforeHookContextOptions : ContextOptions :=
  { viewportWidth := 1920, viewportHeight := 1080, ignoreHTTPSErrors := true }

/-- The page settings after the `Before` hook ran. -/
def beforeHookPageSettings : PageSettings :=
  { defaultTimeoutMs := 30000 }

/-- The cucumber scenario result status (`Status` of
`@cucumber/cucumber`; only the values the hook can observe). -/
inductive ScenarioStatus where
  | passed
  | failed
  | skipped
  | pending
  | ambiguous
  | unknown
  deriving Repr, DecidableEq

/-- The environment the `After` hook runs in: the scenario (pickle)
name, the optional result status (`result?.status`), whether
`this.page` and `this.context` are set (optional chaining on the close
calls), whether each awaited browser operation would throw, and the
`Date.now()` timestamp. -/
structure AfterEnv where
  pickleName : String
  resultStatus : Option ScenarioStatus
  pagePresent : Bool
  contextPresent : Bool
  screenshotThrows : Bool
  pageCloseThrows : Bool
  contextCloseThrows : Bool
  timestampMs : Nat
  deriving Repr, DecidableEq

/-- A screenshot artifact written by `page.screenshot`. -/
structure Screenshot where
  path : String
  fullPage : Bool
  deriving Repr, DecidableEq

/-- Observable trace of one `After` hook execution: artifacts created,
report attachments made, and which close operations were reached. -/
structure AfterTrace where
  screenshots : List Screenshot
  attached : List (String × String)
  pageCloseAttempted : Bool
  contextCloseAttempted : Bool
  deriving Repr, DecidableEq

/-- `String.prototype.replace(/\s+/g, '_')`: every maximal run of
whitespace characters becomes a single underscore.  The flag records
whether the previous character was inside a whitespace run. -/
def collapseWS : Bool → List Char → List Char
  | _, [] => []
  | inRun, c :: rest =>
    if c.isWhitespace then
      if inRun then collapseWS true rest
      else '_' :: collapseWS true rest
    else c :: collapseWS false rest

/-- The sanitized scenario title: `pickle.name.replace(/\s+/g, '_')`. -/
def sanitizeTitle (s : String) : String :=
  String.mk (collapseWS false s.data)

/-- The screenshot path built in the `After` hook:
`./screenshots/<sanitized>_<Date.now()>.png`. -/
def screenshotPath (env : AfterEnv) : String :=
  "./screenshots/" ++ sanitizeTitle env.pickleName ++ "_"
    ++ toString env.timestampMs ++ ".png"

/-- `await this.context?.close()`: skipped when the context is absent;
an exception from the close propagates. -/
def contextClosePhase (env : AfterEnv) (t : AfterTrace) :
    Except String Unit × AfterTrace :=
  if env.contextPresent then
    let t1 := { t with contextCloseAttempted := true }
    if env.contextCloseThrows then (Except.error "context close failed", t1)
    else (Except.ok (), t1)
  else (Except.ok (), t)

/-- `await this.page?.close()` followed by `await this.context?.close()`:
the page close is skipped when the page is absent; an exception from the
page close propagates, so the context close is then never reached. -/
def closePhase (env : AfterEnv) (t : AfterTrace) :
    Except String Unit × AfterTrace :=
  if env.pagePresent then
    let t1 := { t with pageCloseAttempted := true }
    if env.pageCloseThrows then (Except.error "page close failed", t1)
    else contextClosePhase env t1
  else contextClosePhase env t

/-- The `After` hook (`hooks.ts` lines 29-42): when
`result?.status === Status.FAILED`, `await this.page.screenshot(...)`
(full page, path from sanitized title and timestamp) and
`this.attach(screenshot, 'image/png')`; then, with no `try`/`finally`
around any of it, `await this.page?.close()` and
`await this.context?.close()`.  An exception anywhere aborts the rest of
the hook body and propagates. -/
def afterHook (env : AfterEnv) : Except String Unit × AfterTrace :=
  let t0 : AfterTrace :=
    { screenshots := [], attached := []
      pageCloseAttempted := false, contextCloseAttempted := false }
  if env.resultStatus == some ScenarioStatus.failed then
    if env.screenshotThrows then (Except.error "screenshot failed", t0)
    else
      let shot : Screenshot := { path := screenshotPath env, fullPage := true }
      let t1 := { t0 with screenshots := [shot]
                          attached := [(shot.path, "image/png")] }
      closePhase env t1
  else closePhase env t0

/-! ### Runner configuration and run-wide lifecycle

`cucumber.js` pins the run profile; `BeforeAll`/`AfterAll` bracket the
whole run with a single browser launch and close, and with `parallel: 1`
the scenarios execute one after the other, each wrapped by its
`Before`/`After` pair.  The run is modelled as the event trace this
single-lane schedule produces. -/

/-- The default profile exported by `cucumber.js`. -/
structure CucumberConfig where
  requireGlobs : List String
  requireModules : List String
  formats : List String
  appUrl : String
  parallel : Nat
  deriving Repr, DecidableEq

/-- `module.exports.default` of `cucumber.js`. -/
def cucumberDefaultConfig : CucumberConfig :=
  { requireGlobs := ["features/**/*.ts"]
    requireModules := ["ts-node/register"]
    formats := ["progress-bar", "html:cucumber-report.html", "json:cucumber-report.json"]
    appUrl := "https://www.kainos.com"
    parallel := 1 }

/-- One event of the run-wide lifecycle trace. -/
inductive RunEvent where
  | launchBrowser
  | openContext
  | stepEvent
  | closeContext
  | closeBrowser
  deriving Repr, DecidableEq

/-- The events of one scenario with `n` steps under the hooks: `Before`
opens a context (and page), the steps run sequentially, `After` closes
the context. -/
def scenarioEvents (n : Nat) : List RunEvent :=
  RunEvent.openContext ::
    (List.replicate n RunEvent.stepEvent ++ [RunEvent.closeContext])

/-- The event trace of a whole run over scenarios with the given step
counts, under `parallel: 1`: `BeforeAll` launches the browser once
before all scenarios, the scenarios run one at a time, `AfterAll`
closes the browser once after all scenarios. -/
def runEvents (scenarios : List Nat) : List RunEvent :=
  RunEvent.launchBrowser ::
    ((scenarios.map scenarioEvents).flatten ++ [RunEvent.closeBrowser])

/-- Running count of open browsing contexts after one event. -/
def contextDelta (n : Nat) (e : RunEvent) : Nat :=
  match e with
  | RunEvent.openContext => n + 1
  | RunEvent.closeContext => n - 1
  | _ => n

/-- Number of browsing contexts open after a trace prefix. -/
def activeContexts (tr : List RunEvent) : Nat :=
  tr.foldl contextDelta 0

/-! ### Literal tables of `features/header.feature` -/

/-- The navigation-items table of the scenario
`Verify main navigation menu items`. -/
def navItemsTable : List NavRow :=
  [ { item := "Digital Services", url := "/digital-services" }
  , { item := "Workday", url := "/workday" }
  , { item := "Industries", url := "/industries" }
  , { item := "Insights", url := "/insights" }
  , { item := "Careers", url := "https://careers.kainos.com/gb/en" } ]

/-- The services table of the scenario
`Verify Digital Services dropdown menu`. -/
def servicesTable : List ServiceRow :=
  [ { service := "Digital Advisory" }
  , { service := "Cloud and engineering" }
  , { service := "Data and AI" }
  , { service := "AI Business Solutions" }
  , { service := "User-centred design" }
  , { service := "Managed services" } ]

/-- The impacts table of the scenario
`Verify Digital Services dropdown menu`. -/
def impactsTable : List ImpactRow :=
  [ { impact := "Building digital transformation" }
  , { impact := "Driving continuous improvement" }
  , { impact := "Improving business performance" }
  , { impact := "Improving customer engagement" } ]

/-! ### Concrete fixtures used to evaluate the embedding -/

/-- A visible header link element with an `href` attribute. -/
def linkElem (nm url : String) : Elem :=
  { tag := "a", role := "link", name := nm, attrs := [("href", url)]
    visible := true, focused := false, inHeader := true }

/-- A demo page holding two visible header navigation links. -/
def twoLinkPage : PageState :=
  { url := "https://www.kainos.com", title := "Kainos"
    elems := [linkElem "Workday" "/workday", linkElem "Industries" "/industries"] }

/-- The share button of the live header, as reported by the Playwright
spec file: its accessible name is `Open Share icons modal window`. -/
def shareModalButton : Elem :=
  { tag := "button", role := "button", name := "Open Share icons modal window"
    attrs := [], visible := true, focused := false, inHeader := true }

/-- A demo page holding only the share button. -/
def sharePage : PageState :=
  { url := "https://www.kainos.com", title := "Kainos"
    elems := [shareModalButton] }

/-- Whether an effect is a page navigation. -/
def isNavigationEffect : Effect → Bool
  | Effect.navigation _ => true
  | _ => false

/-- A demo page holding the three links of the keyboard-accessibility
step. -/
def threeLinkPage : PageState :=
  { url := "https://www.kainos.com", title := "Kainos"
    elems := [linkElem "Digital Services" "/digital-services",
              linkElem "Workday" "/workday",
              linkElem "Industries" "/industries"] }

/-- The header logo image element of the live page as the step
definitions expect it. -/
def logoImgElem : Elem :=
  { tag := "img", role := "img", name := "logo"
    attrs := [("alt", "logo"),
              ("src", "https://www.kainos.com/globalassets/images/5_logos/kainos_logo.png")]
    visible := true, focused := false, inHeader := true }

/-- The header logo link element of the live page as the step
definitions expect it. -/
def logoLinkElem : Elem :=
  { tag := "a", role := "link", name := "logo", attrs := [("href", "/")]
    visible := true, focused := false, inHeader := true }

/-- A demo page holding the logo image and its link. -/
def logoPage : PageState :=
  { url := "https://www.kainos.com", title := "Kainos"
    elems := [logoImgElem, logoLinkElem] }

/-- A demo page holding the Digital Services navigation link and the
ten dropdown links of the feature tables, all visible. -/
def dropdownPage : PageState :=
  { url := "https://www.kainos.com", title := "Kainos"
    elems :=
      linkElem "Digital Services" "/digital-services" ::
        (servicesTable.map (fun r => linkElem r.service "#") ++
         impactsTable.map (fun r => linkElem r.impact "#")) }

/-- An `After`-hook environment for a failed scenario whose
`page.screenshot` call throws. -/
def screenshotThrowEnv : AfterEnv :=
  { pickleName := "Verify logo presence and functionality"
    resultStatus := some ScenarioStatus.failed
    pagePresent := true, contextPresent := true
    screenshotThrows := true, pageCloseThrows := false
    contextCloseThrows := false
    timestampMs := 1760140800000 }

/-- An `After`-hook environment for a passed scenario whose
`page.close` call throws. -/
def pageCloseThrowEnv : AfterEnv :=
  { pickleName := "Verify main navigation menu items"
    resultStatus := some ScenarioStatus.passed
    pagePresent := true, contextPresent := true
    screenshotThrows := false, pageCloseThrows := true
    contextCloseThrows := false
    timestampMs := 1760140800001 }

/-! ## Theorems -/

/-! ### Shared facts about the assertion primitives -/

theorem assertVisible_ok_iff (es : List Elem) :
    assertVisible es = Except.ok () ↔ ∃ e, es = [e] ∧ e.visible = true := by
  match es with
  | [] => simp [assertVisible]
  | [e] => by_cases h : e.visible <;> simp [assertVisible, h]
  | e :: f :: t => simp [assertVisible]

theorem assertHaveAttribute_ok_iff (es : List Elem) (k v : String) :
    assertHaveAttribute es k v = Except.ok () ↔
      ∃ e, es = [e] ∧ getAttr e k = some v := by
  match es with
  | [] => simp [assertHaveAttribute]
  | [e] =>
    by_cases h : getAttr e k = some v <;>
      simp [assertHaveAttribute, beq_iff_eq, h]
  | e :: f :: t => simp [assertHaveAttribute]

theorem assertFocused_ok_iff (es : List Elem) :
    assertFocused es = Except.ok () ↔ ∃ e, es = [e] ∧ e.focused = true := by
  match es with
  | [] => simp [assertFocused]
  | [e] => by_cases h : e.focused <;> simp [assertFocused, h]
  | e :: f :: t => simp [assertFocused]

theorem mem_resolveRole {p : PageState} {scp : Bool} {role : String}
    {sel : NameSel} {e : Elem} (h : e ∈ resolveRole p scp role sel) :
    e ∈ p.elems ∧ (scp = true → e.inHeader = true) ∧ e.role = role ∧
      nameMatches sel e.name = true := by
  have h2 := List.mem_filter.mp h
  have hp := h2.2
  simp only [resolveRole, Bool.and_eq_true, Bool.or_eq_true,
    Bool.not_eq_true', beq_iff_eq] at hp
  rcases hp with ⟨⟨h5, h6⟩, h4⟩
  refine ⟨h2.1, ?_, h6, h4⟩
  intro hs
  subst hs
  simpa using h5

/-! ### C1: the navigation-items table step -/

theorem navRow_check_ok_iff (p : PageState) (r : NavRow) :
    (navItemsLoop p [r]).fst = Except.ok () ↔
      ∃ e, navRowLocator p r = [e] ∧ e.visible = true ∧
        getAttr e "href" = some r.url := by
  cases hes : navRowLocator p r with
  | nil => simp [navItemsLoop, hes, assertVisible]
  | cons e t =>
    cases t with
    | nil =>
      by_cases hv : e.visible
      · by_cases hh : getAttr e "href" = some r.url
        · simp [navItemsLoop, hes, assertVisible, getAttributeStrict,
                hv, beq_iff_eq, hh]
        · simp [navItemsLoop, hes, assertVisible, getAttributeStrict,
                hv, beq_iff_eq, hh]
      · simp [navItemsLoop, hes, assertVisible, hv]
    | cons f t2 => simp [navItemsLoop, hes, assertVisible]

theorem navItemsLoop_cons_ok (p : PageState) (r : NavRow) (rest : List NavRow) :
    (navItemsLoop p (r :: rest)).fst = Except.ok () ↔
      ((navItemsLoop p [r]).fst = Except.ok () ∧
        (navItemsLoop p rest).fst = Except.ok ()) := by
  cases hes : navRowLocator p r with
  | nil => simp [navItemsLoop, hes, assertVisible]
  | cons e t =>
    cases t with
    | nil =>
      by_cases hv : e.visible
      · by_cases hh : getAttr e "href" = some r.url
        · simp [navItemsLoop, hes, assertVisible, getAttributeStrict,
                hv, beq_iff_eq, hh]
        · simp [navItemsLoop, hes, assertVisible, getAttributeStrict,
                hv, beq_iff_eq, hh]
      · simp [navItemsLoop, hes, assertVisible, hv]
    | cons f t2 => simp [navItemsLoop, hes, assertVisible]

theorem navItemsLoop_ok_iff_all (p : PageState) (rows : List NavRow) :
    (navItemsLoop p rows).fst = Except.ok () ↔
      ∀ r ∈ rows, (navItemsLoop p [r]).fst = Except.ok () := by
  induction rows with
  | nil => simp [navItemsLoop]
  | cons r rest ih =>
    rw [navItemsLoop_cons_ok]
    simp [ih]

/-- C1: the step `the following navigation items should be visible:`
passes exactly when every row of the supplied table, taken in table
order, passes its own check, and a single row's check passes exactly
when the header contains a link whose accessible name equals the row's
label literally (`exact: true`), which is visible, and whose `href`
attribute equals the row's URL string exactly. -/
theorem navigation_items_step_spec :
    (∀ (p : PageState) (rows : List NavRow),
        (theFollowingNavigationItemsShouldBeVisible p rows).res = Except.ok () ↔
          ∀ r ∈ rows,
            (theFollowingNavigationItemsShouldBeVisible p [r]).res = Except.ok ()) ∧
    (∀ (p : PageState) (r : NavRow),
        (theFollowingNavigationItemsShouldBeVisible p [r]).res = Except.ok () ↔
          ∃ e, e ∈ p.elems ∧ e.inHeader = true ∧ e.role = "link" ∧
            e.name = r.item ∧ e.visible = true ∧
            getAttr e "href" = some r.url ∧ navRowLocator p r = [e]) := by
  constructor
  · intro p rows
    exact navItemsLoop_ok_iff_all p rows
  · intro p r
    rw [show (theFollowingNavigationItemsShouldBeVisible p [r]).res
          = (navItemsLoop p [r]).fst from rfl]
    rw [navRow_check_ok_iff]
    constructor
    · rintro ⟨e, hes, hv, hh⟩
      have hmem : e ∈ navRowLocator p r := by
        rw [hes]; exact List.mem_singleton.mpr rfl
      have h2 := mem_resolveRole hmem
      refine ⟨e, h2.1, h2.2.1 rfl, h2.2.2.1, ?_, hv, hh, hes⟩
      have := h2.2.2.2
      simpa [nameMatches, beq_iff_eq] using this
    · rintro ⟨e, _, _, _, _, hv, hh, hes⟩
      exact ⟨e, hes, hv, hh⟩

theorem navigation_items_step_spec_witness :
    (theFollowingNavigationItemsShouldBeVisible twoLinkPage
      [{ item := "Workday", url := "/workday" },
       { item := "Industries", url := "/industries" }]).res = Except.ok () :=
  (navigation_items_step_spec.1 twoLinkPage _).mpr (by decide)

/-! ### C4: the fixed 30-second timeout window -/

/-- C4: the cucumber default step timeout (`setDefaultTimeout(30000)`,
line 6 of `header.steps.ts`) and the per-page default timeout set in the
`Before` hook (`this.page.setDefaultTimeout(30000)`) are both exactly
30000 milliseconds, i.e. 30 seconds; and a step routine fails the
scenario in a single evaluation — with no retry and no intermediate
state — exactly when its locator does not resolve to one visible
element, as stated here for the parameterized button-visibility step. -/
theorem thirty_second_timeout_and_single_shot_failure :
    defaultStepTimeoutMs = 30000 ∧
    beforeHookPageSettings.defaultTimeoutMs = 30000 ∧
    defaultStepTimeoutMs = 30 * 1000 ∧
    (∀ (p : PageState) (arg : String),
        (theButtonShouldBeVisible p arg).res ≠ Except.ok () ↔
          ¬ ∃ e, resolveRole p false "button"
              (NameSel.regexI (compileRegex arg)) = [e] ∧ e.visible = true) := by
  refine ⟨rfl, rfl, rfl, ?_⟩
  intro p arg
  exact not_congr (assertVisible_ok_iff _)

theorem thirty_second_timeout_and_single_shot_failure_witness :
    ¬ ∃ e, resolveRole sharePage false "button"
        (NameSel.regexI (compileRegex "No Such Button")) = [e] ∧
      e.visible = true :=
  (thirty_second_timeout_and_single_shot_failure.2.2.2
    sharePage "No Such Button").mp (by decide)

/-! ### C5: effect footprint of the step routines -/

theorem navItemsLoop_cons_success (p : PageState) (r : NavRow)
    (rest : List NavRow) (e : Elem) (hes : navRowLocator p r = [e])
    (hv : e.visible = true) (hh : getAttr e "href" = some r.url) :
    navItemsLoop p (r :: rest) =
      ((navItemsLoop p rest).fst,
        Effect.domQuery :: Effect.domQuery :: (navItemsLoop p rest).snd) := by
  simp [navItemsLoop, hes, assertVisible, getAttributeStrict, hv,
    beq_iff_eq, hh]

theorem navItemsLoop_effects_shape (p : PageState) (rows : List NavRow) :
    ∃ k, (navItemsLoop p rows).snd = List.replicate k Effect.domQuery ∧
      k ≤ 2 * rows.length ∧
      ((navItemsLoop p rows).fst = Except.ok () → k = 2 * rows.length) := by
  induction rows with
  | nil => exact ⟨0, rfl, by simp, fun _ => rfl⟩
  | cons r rest ih =>
    obtain ⟨k, hk, hle, hok⟩ := ih
    by_cases hsucc : ∃ e, navRowLocator p r = [e] ∧ e.visible = true ∧
        getAttr e "href" = some r.url
    · obtain ⟨e, hes, hv, hh⟩ := hsucc
      have hcons := navItemsLoop_cons_success p r rest e hes hv hh
      refine ⟨k + 1 + 1, ?_, ?_, ?_⟩
      · rw [hcons]
        simp [List.replicate_succ, hk]
      · simp only [List.length_cons]
        omega
      · intro hres
        rw [hcons] at hres
        have hk2 := hok hres
        simp only [List.length_cons]
        omega
    · -- the row fails: at most the two queries of this row were performed
      have hshape : (navItemsLoop p (r :: rest)).snd = [Effect.domQuery] ∨
          (navItemsLoop p (r :: rest)).snd =
            [Effect.domQuery, Effect.domQuery] := by
        cases hes : navRowLocator p r with
        | nil => simp [navItemsLoop, hes, assertVisible]
        | cons e t =>
          cases t with
          | nil =>
            by_cases hv : e.visible
            · by_cases hh : getAttr e "href" = some r.url
              · exact absurd ⟨e, hes, hv, hh⟩ hsucc
              · simp [navItemsLoop, hes, assertVisible, getAttributeStrict,
                      hv, beq_iff_eq, hh]
            · simp [navItemsLoop, hes, assertVisible, hv]
          | cons f t2 => simp [navItemsLoop, hes, assertVisible]
      have hfail : (navItemsLoop p (r :: rest)).fst ≠ Except.ok () := by
        intro hres
        have h1 := navItemsLoop_cons_ok p r rest
        have h2 := (navRow_check_ok_iff p r).mp (h1.mp hres).1
        exact hsucc h2
      rcases hshape with h | h
      · refine ⟨1, by simp [h, List.replicate_succ], ?_, fun hres => absurd hres hfail⟩
        simp only [List.length_cons]
        omega
      · refine ⟨2, by simp [h, List.replicate_succ], ?_, fun hres => absurd hres hfail⟩
        simp only [List.length_cons]
        omega

theorem focusAndCheck_effects (p : PageState) (l : String) :
    (focusAndCheck p l).snd.snd.countP isNavigationEffect = 0 ∧
      ((focusAndCheck p l).fst = Except.ok () →
        (focusAndCheck p l).snd.snd =
          [Effect.domQuery, Effect.focusOn l, Effect.domQuery]) := by
  cases hes : resolveRole p true "link" (NameSel.exactName l) with
  | nil => simp [focusAndCheck, hes, List.countP_cons, isNavigationEffect]
  | cons e t =>
    cases t with
    | nil =>
      simp [focusAndCheck, hes, List.countP_cons, isNavigationEffect]
    | cons f t2 =>
      simp [focusAndCheck, hes, List.countP_cons, isNavigationEffect]

theorem keyboardLoop_effects (labels : List String) (p : PageState) :
    (keyboardLoop p labels).snd.snd.countP isNavigationEffect = 0 ∧
      ((keyboardLoop p labels).fst = Except.ok () →
        (keyboardLoop p labels).snd.snd =
          (labels.map
            (fun l => [Effect.domQuery, Effect.focusOn l, Effect.domQuery])).flatten) := by
  induction labels generalizing p with
  | nil => simp [keyboardLoop]
  | cons l rest ih =>
    obtain ⟨hnav, hok⟩ := focusAndCheck_effects p l
    rcases hfc : focusAndCheck p l with ⟨r, p2, effs⟩
    rw [hfc] at hnav hok
    simp only at hnav hok
    cases r with
    | ok u =>
      obtain ⟨ihnav, ihok⟩ := ih p2
      constructor
      · simp only [keyboardLoop, hfc, List.countP_append]
        rw [hnav, ihnav]
      · intro hres
        have hres2 : (keyboardLoop p2 rest).fst = Except.ok () := by
          simpa [keyboardLoop, hfc] using hres
        have heff := hok rfl
        simp [keyboardLoop, hfc, heff, ihok hres2]
    | error m =>
      constructor
      · simpa [keyboardLoop, hfc] using hnav
      · intro hres
        simp [keyboardLoop, hfc] at hres

/-- C5 counterexample: on a concrete page and a two-row table, the
step `the following navigation items should be visible:` performs four
DOM queries and zero page navigations — not exactly one of either — and
on a concrete page the keyboard-accessibility step performs six DOM
queries and three focus actions. -/
theorem one_query_per_routine_refuted :
    (theFollowingNavigationItemsShouldBeVisible twoLinkPage
      [{ item := "Workday", url := "/workday" },
       { item := "Industries", url := "/industries" }]).effects =
      [Effect.domQuery, Effect.domQuery, Effect.domQuery, Effect.domQuery] ∧
    (theFollowingNavigationItemsShouldBeVisible twoLinkPage
      [{ item := "Workday", url := "/workday" },
       { item := "Industries", url := "/industries" }]).effects.count
        Effect.domQuery = 4 ∧
    (allNavigationLinksKeyboardAccessible threeLinkPage).effects.count
      Effect.domQuery = 6 ∧
    (4 ≠ 1 ∧ 6 ≠ 1) := by
  decide

/-- C5 (amended): each step routine performs at most one page
navigation — the homepage-navigation step performs exactly one and the
query-based routines none — but a table-driven or list-driven routine
performs one DOM query per locator operation rather than one per
routine: the navigation-items step performs two DOM queries per
processed row (exactly `2·n` on a table of `n` rows when it passes), and
the keyboard-accessibility step performs a query-focus-query triple per
checked link; and no routine mutates any component of the scenario world
other than the browser page state. -/
theorem step_effect_footprints :
    (∀ (p : PageState) (rows : List NavRow),
        ∃ k, (theFollowingNavigationItemsShouldBeVisible p rows).effects =
            List.replicate k Effect.domQuery ∧
          k ≤ 2 * rows.length ∧
          ((theFollowingNavigationItemsShouldBeVisible p rows).res = Except.ok () →
            k = 2 * rows.length)) ∧
    (∀ p : PageState, (theFollowingNavigationItemsShouldBeVisible p
        navItemsTable).page = p) ∧
    (∀ p : PageState,
        (allNavigationLinksKeyboardAccessible p).effects.countP
            isNavigationEffect = 0 ∧
        ((allNavigationLinksKeyboardAccessible p).res = Except.ok () →
          (allNavigationLinksKeyboardAccessible p).effects =
            (keyboardNavLabels.map
              (fun l => [Effect.domQuery, Effect.focusOn l, Effect.domQuery])).flatten)) ∧
    (∀ p : PageState, (navigateToKainosHomepage p).effects =
        [Effect.navigation "https://www.kainos.com"]) ∧
    (∀ (s : PageState → StepRun) (w : ScenarioWorld),
        (runStepInWorld s w).snd.fst.contextOptions = w.contextOptions ∧
        (runStepInWorld s w).snd.fst.pageSettings = w.pageSettings ∧
        (runStepInWorld s w).snd.fst.attachments = w.attachments) := by
  refine ⟨?_, ?_, ?_, ?_, ?_⟩
  · intro p rows
    exact navItemsLoop_effects_shape p rows
  · intro p
    rfl
  · intro p
    exact keyboardLoop_effects keyboardNavLabels p
  · intro p
    rfl
  · intro s w
    exact ⟨rfl, rfl, rfl⟩

theorem step_effect_footprints_witness :
    (navigateToKainosHomepage twoLinkPage).effects =
      [Effect.navigation "https://www.kainos.com"] :=
  step_effect_footprints.2.2.2.1 twoLinkPage

/-! ### C2 and C3: the `After` hook -/

theorem contextClosePhase_preserves_artifacts (env : AfterEnv) (t : AfterTrace) :
    (contextClosePhase env t).snd.screenshots = t.screenshots ∧
      (contextClosePhase env t).snd.attached = t.attached := by
  unfold contextClosePhase
  split
  · split <;> simp
  · simp

theorem closePhase_preserves_artifacts (env : AfterEnv) (t : AfterTrace) :
    (closePhase env t).snd.screenshots = t.screenshots ∧
      (closePhase env t).snd.attached = t.attached := by
  unfold closePhase
  split
  · split
    · simp
    · have h := contextClosePhase_preserves_artifacts env
        { t with pageCloseAttempted := true }
      simpa using h
  · exact contextClosePhase_preserves_artifacts env t

/-- C2: when the screenshot operation itself does not throw, the
`After` hook creates exactly one screenshot artifact precisely for a
`FAILED` scenario result; the artifact is a full-page screenshot whose
path is `./screenshots/` plus the scenario title with each whitespace
run replaced by `_`, plus `_` and the timestamp, plus `.png`, and it is
attached to the scenario's report entry as `image/png`.  A scenario
whose result is not `FAILED` (in particular a passed one) produces no
screenshot and no attachment, regardless of whether the screenshot
operation would have thrown. -/
theorem after_hook_screenshot_iff_failed (env : AfterEnv)
    (hs : env.screenshotThrows = false) :
    ((afterHook env).snd.screenshots.length = 1 ↔
        env.resultStatus = some ScenarioStatus.failed) ∧
    (env.resultStatus = some ScenarioStatus.failed →
        (afterHook env).snd.screenshots =
          [{ path := "./screenshots/" ++ sanitizeTitle env.pickleName ++ "_"
                ++ toString env.timestampMs ++ ".png"
             fullPage := true }] ∧
        (afterHook env).snd.attached = [(screenshotPath env, "image/png")]) ∧
    (∀ env2 : AfterEnv, env2.resultStatus ≠ some ScenarioStatus.failed →
        (afterHook env2).snd.screenshots = [] ∧
          (afterHook env2).snd.attached = []) := by
  refine ⟨?_, ?_, ?_⟩
  · by_cases hf : env.resultStatus = some ScenarioStatus.failed
    · have h := closePhase_preserves_artifacts env
        { screenshots := [{ path := screenshotPath env, fullPage := true }]
          attached := [(screenshotPath env, "image/png")]
          pageCloseAttempted := false, contextCloseAttempted := false }
      simp [afterHook, hs, hf, h.1]
    · have h := closePhase_preserves_artifacts env
        { screenshots := [], attached := []
          pageCloseAttempted := false, contextCloseAttempted := false }
      simp [afterHook, hf, h.1]
  · intro hf
    have h := closePhase_preserves_artifacts env
      { screenshots := [{ path := screenshotPath env, fullPage := true }]
        attached := [(screenshotPath env, "image/png")]
        pageCloseAttempted := false, contextCloseAttempted := false }
    constructor
    · rw [show (afterHook env).snd.screenshots =
          [{ path := screenshotPath env, fullPage := true }] by
            simpa [afterHook, hs, hf] using h.1]
      simp [screenshotPath]
    · simpa [afterHook, hs, hf] using h.2
  · intro env2 hf
    have h := closePhase_preserves_artifacts env2
      { screenshots := [], attached := []
        pageCloseAttempted := false, contextCloseAttempted := false }
    constructor
    · simpa [afterHook, hf] using h.1
    · simpa [afterHook, hf] using h.2

/-- C3 counterexample: the `After` hook has no `try`/`finally`.  At the
concrete failed-scenario environment whose screenshot call throws, the
hook exits with the screenshot error and neither `page.close` nor
`context.close` is ever attempted; and at the concrete passed-scenario
environment whose `page.close` throws, the close error escalates to the
caller unswallowed and the context close is never attempted. -/
theorem after_hook_release_on_every_path_refuted :
    (afterHook screenshotThrowEnv).fst = Except.error "screenshot failed" ∧
    (afterHook screenshotThrowEnv).snd.pageCloseAttempted = false ∧
    (afterHook screenshotThrowEnv).snd.contextCloseAttempted = false ∧
    (afterHook pageCloseThrowEnv).fst = Except.error "page close failed" ∧
    (afterHook pageCloseThrowEnv).snd.contextCloseAttempted = false := by
  decide

/-- C3 (amended): release of the page and context is attempted only on
the exit path where the screenshot branch does not throw; on that path
the page close is attempted exactly when a page is present, the context
close is reached exactly when a context is present and the page close
did not throw, and the hook returns normally exactly when no attempted
close throws — errors raised by the release operations escalate to the
caller rather than being swallowed (only an absent page or context is
tolerated, via optional chaining). -/
theorem after_hook_release_characterization (env : AfterEnv) :
    (env.resultStatus = some ScenarioStatus.failed → env.screenshotThrows = true →
        (afterHook env).fst = Except.error "screenshot failed" ∧
        (afterHook env).snd.pageCloseAttempted = false ∧
        (afterHook env).snd.contextCloseAttempted = false) ∧
    (¬(env.resultStatus = some ScenarioStatus.failed ∧ env.screenshotThrows = true) →
        (afterHook env).snd.pageCloseAttempted = env.pagePresent ∧
        (afterHook env).snd.contextCloseAttempted =
          (env.contextPresent && (!env.pagePresent || !env.pageCloseThrows)) ∧
        ((afterHook env).fst = Except.ok () ↔
          ((!env.pagePresent || !env.pageCloseThrows)
            && (!env.contextPresent || !env.contextCloseThrows)) = true)) := by
  obtain ⟨nm, st, pp, cp, sh, pc, cc, ts⟩ := env
  by_cases hf : st = some ScenarioStatus.failed <;>
    cases pp <;> cases cp <;> cases sh <;> cases pc <;> cases cc <;>
      simp_all [afterHook, closePhase, contextClosePhase, beq_iff_eq]

theorem after_hook_release_characterization_witness :
    (afterHook pageCloseThrowEnv).snd.pageCloseAttempted =
      pageCloseThrowEnv.pagePresent :=
  ((after_hook_release_characterization pageCloseThrowEnv).2 (by decide)).1

/-! ### C6: the logo verification steps -/

/-- C6: the three logo steps assert exactly the three claimed
properties: the header logo image (`#header img[alt="logo"]`) resolves
uniquely and is visible; its `src` attribute exists and contains the
literal substring `/globalassets/images/5_logos/kainos_logo.png`; and
the header link whose accessible name matches `/logo/i` has an `href`
attribute equal to the exact string `/`. -/
theorem logo_steps_spec :
    (∀ p : PageState, (kainosLogoShouldBeVisible p).res = Except.ok () ↔
        ∃ e, resolveLogoImg p = [e] ∧ e.visible = true) ∧
    (∀ p : PageState,
        (logoShouldContainCorrectImageSource p).res = Except.ok () ↔
          ∃ e, resolveLogoImg p = [e] ∧ ∃ s, getAttr e "src" = some s ∧
            charsContain logoSrcSubstring.data s.data = true) ∧
    (∀ p : PageState, (logoShouldLinkToHomepage p).res = Except.ok () ↔
        ∃ e, resolveRole p true "link"
            (NameSel.regexI (compileRegex "logo")) = [e] ∧
          getAttr e "href" = some "/") ∧
    logoSrcSubstring = "/globalassets/images/5_logos/kainos_logo.png" := by
  refine ⟨?_, ?_, ?_, rfl⟩
  · intro p
    exact assertVisible_ok_iff _
  · intro p
    cases hes : resolveLogoImg p with
    | nil => simp [logoShouldContainCorrectImageSource, getAttributeStrict, hes]
    | cons e t =>
      cases t with
      | nil =>
        cases hsrc : getAttr e "src" with
        | none =>
          simp [logoShouldContainCorrectImageSource, getAttributeStrict,
            hes, hsrc]
        | some s =>
          by_cases hc : charsContain logoSrcSubstring.data s.data = true
          · simp [logoShouldContainCorrectImageSource, getAttributeStrict,
              hes, hsrc, hc]
          · simp [logoShouldContainCorrectImageSource, getAttributeStrict,
              hes, hsrc, hc]
      | cons f t2 =>
        simp [logoShouldContainCorrectImageSource, getAttributeStrict, hes]
  · intro p
    exact assertHaveAttribute_ok_iff _ "href" "/"

theorem logo_steps_spec_witness :
    (kainosLogoShouldBeVisible logoPage).res = Except.ok () :=
  (logo_steps_spec.1 logoPage).mpr ⟨logoImgElem, by decide, by decide⟩

/-! ### C7: the Digital Services dropdown scenario -/

theorem servicesLoop_ok_iff (p : PageState) (rows : List ServiceRow) :
    (servicesLoop p rows).fst = Except.ok () ↔
      ∀ r ∈ rows, ∃ e, resolveRole p false "link"
          (NameSel.substrCI r.service) = [e] ∧ e.visible = true := by
  induction rows with
  | nil => simp [servicesLoop]
  | cons r rest ih =>
    by_cases h : ∃ e, resolveRole p false "link"
        (NameSel.substrCI r.service) = [e] ∧ e.visible = true
    · have hok : assertVisible (resolveRole p false "link"
          (NameSel.substrCI r.service)) = Except.ok () :=
        (assertVisible_ok_iff _).mpr h
      simp [servicesLoop, hok, ih, h]
    · have hne : assertVisible (resolveRole p false "link"
          (NameSel.substrCI r.service)) ≠ Except.ok () := fun hc =>
        h ((assertVisible_ok_iff _).mp hc)
      cases hv : assertVisible (resolveRole p false "link"
          (NameSel.substrCI r.service)) with
      | ok u => exact absurd (by rw [hv]) hne
      | error m => simp [servicesLoop, hv, h]

theorem impactsLoop_ok_iff (p : PageState) (rows : List ImpactRow) :
    (impactsLoop p rows).fst = Except.ok () ↔
      ∀ r ∈ rows, ∃ e, resolveRole p false "link"
          (NameSel.substrCI r.impact) = [e] ∧ e.visible = true := by
  induction rows with
  | nil => simp [impactsLoop]
  | cons r rest ih =>
    by_cases h : ∃ e, resolveRole p false "link"
        (NameSel.substrCI r.impact) = [e] ∧ e.visible = true
    · have hok : assertVisible (resolveRole p false "link"
          (NameSel.substrCI r.impact)) = Except.ok () :=
        (assertVisible_ok_iff _).mpr h
      simp [impactsLoop, hok, ih, h]
    · have hne : assertVisible (resolveRole p false "link"
          (NameSel.substrCI r.impact)) ≠ Except.ok () := fun hc =>
        h ((assertVisible_ok_iff _).mp hc)
      cases hv : assertVisible (resolveRole p false "link"
          (NameSel.substrCI r.impact)) with
      | ok u => exact absurd (by rw [hv]) hne
      | error m => simp [impactsLoop, hv, h]

/-- C7: the two dropdown table steps, run on the literal scenario
tables (six service labels and four impact labels — ten in all), pass
exactly when each of the ten labels resolves to one visible link; the
preceding hover step on `Digital Services` passes exactly when the
header holds one visible link with that exact name. -/
theorem dropdown_steps_check_all_ten_labels :
    servicesTable.length = 6 ∧ impactsTable.length = 4 ∧
    (∀ p : PageState,
      ((theFollowingServicesShouldBeVisible p servicesTable).res = Except.ok () ∧
       (theFollowingImpactsShouldBeVisible p impactsTable).res = Except.ok ()) ↔
      ((∀ r ∈ servicesTable, ∃ e, resolveRole p false "link"
          (NameSel.substrCI r.service) = [e] ∧ e.visible = true) ∧
       (∀ r ∈ impactsTable, ∃ e, resolveRole p false "link"
          (NameSel.substrCI r.impact) = [e] ∧ e.visible = true))) ∧
    (∀ p : PageState,
      (hoverOverNavigationItem p "Digital Services").res = Except.ok () ↔
        ∃ e, resolveRole p true "link"
            (NameSel.exactName "Digital Services") = [e] ∧
          e.visible = true) := by
  refine ⟨rfl, rfl, ?_, ?_⟩
  · intro p
    exact and_congr (servicesLoop_ok_iff p servicesTable)
      (impactsLoop_ok_iff p impactsTable)
  · intro p
    cases hes : resolveRole p true "link"
        (NameSel.exactName "Digital Services") with
    | nil => simp [hoverOverNavigationItem, hes]
    | cons e t =>
      cases t with
      | nil =>
        by_cases hv : e.visible
        · simp [hoverOverNavigationItem, hes, hv]
        · simp [hoverOverNavigationItem, hes, hv]
      | cons f t2 => simp [hoverOverNavigationItem, hes]

theorem dropdown_steps_check_all_ten_labels_witness :
    (∀ r ∈ servicesTable, ∃ e, resolveRole dropdownPage false "link"
        (NameSel.substrCI r.service) = [e] ∧ e.visible = true) ∧
    (∀ r ∈ impactsTable, ∃ e, resolveRole dropdownPage false "link"
        (NameSel.substrCI r.impact) = [e] ∧ e.visible = true) :=
  (dropdown_steps_check_all_ten_labels.2.2.1 dropdownPage).mp (by decide)

theorem after_hook_screenshot_iff_failed_witness :
    (afterHook { screenshotThrowEnv with
        screenshotThrows := false }).snd.screenshots.length = 1 ↔
      ({ screenshotThrowEnv with screenshotThrows := false } :
        AfterEnv).resultStatus = some ScenarioStatus.failed :=
  (after_hook_screenshot_iff_failed
    { screenshotThrowEnv with screenshotThrows := false } (by decide)).1

/-! ### C8: single-lane execution, single browser, one context at a time -/

theorem foldl_contextDelta_steps (k a : Nat) :
    (List.replicate k RunEvent.stepEvent).foldl contextDelta a = a := by
  induction k generalizing a with
  | zero => rfl
  | succ n ih => simp [List.replicate_succ, contextDelta, ih]

theorem foldl_contextDelta_stepsOnly (t : List RunEvent) (a : Nat)
    (h : ∀ x ∈ t, x = RunEvent.stepEvent) : t.foldl contextDelta a = a := by
  induction t generalizing a with
  | nil => rfl
  | cons x xs ih =>
    have hx := h x (List.mem_cons_self x xs)
    subst hx
    simp only [List.foldl_cons]
    rw [show contextDelta a RunEvent.stepEvent = a from rfl]
    exact ih a fun y hy => h y (List.mem_cons_of_mem _ hy)

theorem scenarioEvents_foldl (n a : Nat) :
    (scenarioEvents n).foldl contextDelta a = a := by
  simp [scenarioEvents, List.foldl_append, foldl_contextDelta_steps,
    contextDelta]

theorem flatten_scenarios_foldl (ss : List Nat) (a : Nat) :
    ((ss.map scenarioEvents).flatten).foldl contextDelta a = a := by
  induction ss generalizing a with
  | nil => rfl
  | cons s rest ih =>
    simp [List.foldl_append, scenarioEvents_foldl, ih]

theorem prefix_append_cases {α : Type} {t l₁ l₂ : List α}
    (h : t <+: l₁ ++ l₂) :
    t <+: l₁ ∨ ∃ t₂, t = l₁ ++ t₂ ∧ t₂ <+: l₂ := by
  induction l₁ generalizing t with
  | nil => exact Or.inr ⟨t, rfl, h⟩
  | cons a l ih =>
    cases t with
    | nil => exact Or.inl List.nil_prefix
    | cons b t2 =>
      rw [List.cons_append] at h
      rcases List.cons_prefix_cons.mp h with ⟨hb, ht⟩
      subst hb
      rcases ih ht with h1 | ⟨t₂, rfl, h2⟩
      · exact Or.inl (List.cons_prefix_cons.mpr ⟨rfl, h1⟩)
      · exact Or.inr ⟨t₂, rfl, h2⟩

theorem prefix_singleton_cases {α : Type} {t : List α} {a : α}
    (h : t <+: [a]) : t = [] ∨ t = [a] := by
  rcases h with ⟨s, hs⟩
  cases t with
  | nil => exact Or.inl rfl
  | cons c t4 =>
    rw [List.cons_append] at hs
    injection hs with h1 h2
    subst h1
    rcases List.append_eq_nil.mp h2 with ⟨h3, _⟩
    subst h3
    exact Or.inr rfl

theorem prefix_scenarioEvents_le_one (n : Nat) (t : List RunEvent)
    (h : t <+: scenarioEvents n) : t.foldl contextDelta 0 ≤ 1 := by
  cases t with
  | nil => exact Nat.zero_le 1
  | cons b t2 =>
    rcases List.cons_prefix_cons.mp h with ⟨hb, ht⟩
    subst hb
    simp only [List.foldl_cons]
    rw [show contextDelta 0 RunEvent.openContext = 1 from rfl]
    rcases prefix_append_cases ht with h1 | ⟨t₃, rfl, h2⟩
    · rw [foldl_contextDelta_stepsOnly t2 1
        (fun x hx => List.eq_of_mem_replicate (h1.subset hx))]
    · rw [List.foldl_append, foldl_contextDelta_steps]
      rcases prefix_singleton_cases h2 with rfl | rfl
      · exact Nat.le_refl 1
      · simp [contextDelta]

theorem prefix_flatten_le_one (ss : List Nat) (t : List RunEvent)
    (h : t <+: (ss.map scenarioEvents).flatten) :
    t.foldl contextDelta 0 ≤ 1 := by
  induction ss generalizing t with
  | nil =>
    have ht : t <+: ([] : List RunEvent) := by simpa using h
    rw [List.prefix_nil.mp ht]
    exact Nat.zero_le 1
  | cons s rest ih =>
    rw [List.map_cons, List.flatten_cons] at h
    rcases prefix_append_cases h with h1 | ⟨t₂, rfl, h2⟩
    · exact prefix_scenarioEvents_le_one s t h1
    · rw [List.foldl_append, scenarioEvents_foldl]
      exact ih t₂ h2

theorem scenarioEvents_count_launch (n : Nat) :
    (scenarioEvents n).count RunEvent.launchBrowser = 0 := by
  simp [scenarioEvents, List.count_cons, List.count_append,
    List.count_replicate]

theorem scenarioEvents_count_closeBrowser (n : Nat) :
    (scenarioEvents n).count RunEvent.closeBrowser = 0 := by
  simp [scenarioEvents, List.count_cons, List.count_append,
    List.count_replicate]

theorem flatten_count_launch (ss : List Nat) :
    ((ss.map scenarioEvents).flatten).count RunEvent.launchBrowser = 0 := by
  induction ss with
  | nil => rfl
  | cons s rest ih =>
    simp [List.count_append, scenarioEvents_count_launch, ih]

theorem flatten_count_closeBrowser (ss : List Nat) :
    ((ss.map scenarioEvents).flatten).count RunEvent.closeBrowser = 0 := by
  induction ss with
  | nil => rfl
  | cons s rest ih =>
    simp [List.count_append, scenarioEvents_count_closeBrowser, ih]

/-- C8: the exported cucumber profile pins `parallel` to `1`; over any
run, the lifecycle trace launches the browser exactly once — as its very
first event, before every scenario — and closes it exactly once — as its
very last event, after every scenario; at every point of the run at most
one browsing context is open, and while a scenario's steps execute
(after `Before` opened its context, through any step of the scenario)
exactly one is open. -/
theorem single_lane_run_model :
    cucumberDefaultConfig.parallel = 1 ∧
    (∀ ss : List Nat,
      (runEvents ss).count RunEvent.launchBrowser = 1 ∧
      (runEvents ss).count RunEvent.closeBrowser = 1 ∧
      (runEvents ss).head? = some RunEvent.launchBrowser ∧
      (runEvents ss).getLast? = some RunEvent.closeBrowser ∧
      (∀ pre, pre <+: runEvents ss → activeContexts pre ≤ 1)) ∧
    (∀ n k : Nat, k ≤ n →
      activeContexts ((scenarioEvents n).take (k + 1)) = 1) := by
  refine ⟨rfl, ?_, ?_⟩
  · intro ss
    refine ⟨?_, ?_, rfl, ?_, ?_⟩
    · simp [runEvents, List.count_cons, List.count_append,
        flatten_count_launch]
    · simp [runEvents, List.count_cons, List.count_append,
        flatten_count_closeBrowser]
    · rw [show runEvents ss = (RunEvent.launchBrowser ::
          (ss.map scenarioEvents).flatten) ++ [RunEvent.closeBrowser] by
            simp [runEvents]]
      exact List.getLast?_concat _
    · intro pre hpre
      cases pre with
      | nil => exact Nat.zero_le 1
      | cons b pre2 =>
        rcases List.cons_prefix_cons.mp hpre with ⟨hb, ht⟩
        subst hb
        unfold activeContexts
        simp only [List.foldl_cons]
        rw [show contextDelta 0 RunEvent.launchBrowser = 0 from rfl]
        rcases prefix_append_cases ht with h1 | ⟨t₂, rfl, h2⟩
        · exact prefix_flatten_le_one ss pre2 h1
        · rw [List.foldl_append, flatten_scenarios_foldl]
          rcases prefix_singleton_cases h2 with rfl | rfl
          · exact Nat.zero_le 1
          · simp [contextDelta]
  · intro n k hk
    have htake : (scenarioEvents n).take (k + 1) =
        RunEvent.openContext :: List.replicate k RunEvent.stepEvent := by
      simp only [scenarioEvents, List.take_succ_cons,
        List.take_append_eq_append_take, List.take_replicate,
        List.length_replicate]
      rw [Nat.sub_eq_zero_of_le hk, inf_eq_left.mpr hk]
      simp
    rw [htake]
    unfold activeContexts
    simp only [List.foldl_cons]
    rw [show contextDelta 0 RunEvent.openContext = 1 from rfl]
    exact foldl_contextDelta_steps k 1

theorem single_lane_run_model_witness :
    activeContexts ((scenarioEvents 3).take 2) = 1 :=
  single_lane_run_model.2.2 3 1 (by decide)

/-! ### C9: the cookie-consent step is total -/

/-- C9: the step `I accept the cookie consent` returns success on every
page state and never changes the modelled page; any error raised by the
visibility check is converted to `false` by the `.catch(() => false)`
wrapper; the click followed by the fixed one-second wait is performed
exactly when the caught visibility check returned `true`; and when the
banner button is absent the step performs only its visibility query and
is otherwise a no-op. -/
theorem accept_cookie_consent_total (p : PageState) :
    (acceptCookieConsent p).res = Except.ok () ∧
    (acceptCookieConsent p).page = p ∧
    (∀ m, isVisibleExc (acceptCookiesButtonLocator p) = Except.error m →
      catchFalse (isVisibleExc (acceptCookiesButtonLocator p)) = false) ∧
    (catchFalse (isVisibleExc (acceptCookiesButtonLocator p)) = true ↔
      (acceptCookieConsent p).effects =
        [Effect.domQuery, Effect.domQuery,
         Effect.clickOn "I Accept Cookies", Effect.waitMs 1000]) ∧
    (catchFalse (isVisibleExc (acceptCookiesButtonLocator p)) = false →
      (acceptCookieConsent p).effects = [Effect.domQuery]) := by
  cases hiv : catchFalse (isVisibleExc (acceptCookiesButtonLocator p)) with
  | true =>
    refine ⟨?_, ?_, ?_, ?_, ?_⟩
    · simp [acceptCookieConsent, hiv]
    · simp [acceptCookieConsent, hiv]
    · intro m hm
      rw [hm] at hiv
      simp [catchFalse] at hiv
    · simp [acceptCookieConsent, hiv]
    · intro h
      cases h
  | false =>
    refine ⟨?_, ?_, ?_, ?_, ?_⟩
    · simp [acceptCookieConsent, hiv]
    · simp [acceptCookieConsent, hiv]
    · intro m hm
      simp [catchFalse, hm]
    · constructor
      · intro h
        cases h
      · intro h
        rw [show (acceptCookieConsent p).effects = [Effect.domQuery] by
          simp [acceptCookieConsent, hiv]] at h
        cases h
    · intro _
      simp [acceptCookieConsent, hiv]

theorem accept_cookie_consent_total_witness :
    (acceptCookieConsent twoLinkPage).res = Except.ok () :=
  (accept_cookie_consent_total twoLinkPage).1

/-! ### C10: the parameterized steps match by regular expression -/

/-- C10: the three `{string}`-parameterized visibility steps wrap their
argument in `new RegExp(arg, 'i')`, so the accessible name is matched
case-insensitively, unanchored, and with regex metacharacter semantics
rather than literal equality: a button named
`Open Share icons modal window` satisfies `the "Share icons" button
should be visible` (and its lowercase variant), although no element has
the exact name `Share icons`; the argument `Share.icons` also matches
that button through the `.` wildcard even though `Share.icons` is not a
literal substring of the name; and an argument that matches nowhere
fails the step. -/
theorem string_steps_use_ci_unanchored_regex :
    (∀ (p : PageState) (arg : String),
        (theButtonShouldBeVisible p arg).res = Except.ok () ↔
          ∃ e, resolveRole p false "button"
              (NameSel.regexI (compileRegex arg)) = [e] ∧ e.visible = true) ∧
    (∀ (p : PageState) (arg : String),
        (theLinkShouldBeVisible p arg).res = Except.ok () ↔
          ∃ e, resolveRole p false "link"
              (NameSel.regexI (compileRegex arg)) = [e] ∧ e.visible = true) ∧
    (∀ (p : PageState) (arg url : String),
        (theLinkShouldPointTo p arg url).res = Except.ok () ↔
          ∃ e, resolveRole p false "link"
              (NameSel.regexI (compileRegex arg)) = [e] ∧
            getAttr e "href" = some url) ∧
    (theButtonShouldBeVisible sharePage "Share icons").res = Except.ok () ∧
    shareModalButton.name ≠ "Share icons" ∧
    resolveRole sharePage false "button" (NameSel.exactName "Share icons") = [] ∧
    (theButtonShouldBeVisible sharePage "share ICONS").res = Except.ok () ∧
    (theButtonShouldBeVisible sharePage "Share.icons").res = Except.ok () ∧
    charsContain "Share.icons".data shareModalButton.name.data = false ∧
    (theButtonShouldBeVisible sharePage "Modal Share").res ≠ Except.ok () := by
  refine ⟨?_, ?_, ?_, by decide, by decide, by decide, by decide, by decide,
    by decide, by decide⟩
  · intro p arg
    exact assertVisible_ok_iff _
  · intro p arg
    exact assertVisible_ok_iff _
  · intro p arg url
    exact assertHaveAttribute_ok_iff _ "href" url

theorem string_steps_use_ci_unanchored_regex_witness :
    ∃ e, resolveRole sharePage false "button"
        (NameSel.regexI (compileRegex "Share icons")) = [e] ∧
      e.visible = true :=
  (string_steps_use_ci_unanchored_regex.1 sharePage "Share icons").mp
    (by decide)

end Kainos
